import Mathlib

/-!
Verification of the core logic of the SMon SNMP monitoring service.

The definitions below are a shallow embedding, in Lean, of the JavaScript
functions of the monitor's main module: the counter-rollover normalizer
(handleCounterRollover), the vendor OID resolver (VENDOR_OIDS, getVendorOID,
getCpuOID), the CPU polling logic of pollSNMP, the device status tracking of
pollSNMP / checkDeviceTimeouts, and the flapping engine (isDeviceFlapping,
isPingFlapping, recordDeviceTransition, recordPingTransition,
notifyDeviceStatus, notifyPingStatus, notifyFlappingStatus).

JavaScript numbers are modelled by exact integers (Int) or rationals (Rat);
all counter and timestamp values handled by the monitor are integral, and the
two fractional constants of the source (0.8 and 0.05) are rewritten as the
exact integer comparisons they denote (see the comments at their use sites).
-/

namespace SMon

/-- Key of the counter-state map: the source uses the string
`deviceId_ifaceIndex_direction` as key of the global lastCounterValues
object; the three components are kept separate here. -/
structure CounterKey where
  deviceId : String
  ifaceIndex : Nat
  direction : String
deriving DecidableEq

/-- State of lastCounterValues: partial map from keys to the last observed
raw counter value (absent key = no previous reading). -/
abbrev CounterMap := CounterKey → Option Int

/-- Pointwise update of a counter map, modelling `lastCounterValues[key] = v`. -/
def CounterMap.update (m : CounterMap) (k : CounterKey) (v : Int) : CounterMap :=
  fun k2 => if k2 = k then some v else m k2

/-- Counter map holding a single entry, used to build concrete test states. -/
def counterMapOf (k : CounterKey) (v : Int) : CounterMap :=
  CounterMap.update (fun _ => none) k v

/-- Constant max32Bit = 2^32 - 1 of handleCounterRollover. -/
def max32Bit : Int := 4294967295

/-- Constant max64Bit = 2^64 - 1 of handleCounterRollover (the source writes
this literal; the verified properties do not depend on the fact that a
JavaScript double rounds it to 2^64). -/
def max64Bit : Int := 18446744073709551615

/-- Which return point of handleCounterRollover produced the result; the
names follow the pattern comments of the source (first reading, normal case,
Pattern 1 .. Pattern 5, default). -/
inductive RolloverBranch where
  | firstReading
  | normal
  | singleWrapNearMax
  | multiWrap
  | singleWrapFormula
  | wrap64
  | reset
  | defaultDrop
deriving DecidableEq, Repr

/-- Result of one call to handleCounterRollover: the returned delta, the
branch that returned it, and the updated lastCounterValues map. -/
structure RolloverResult where
  delta : Int
  branch : RolloverBranch
  state : CounterMap

/-- Number of wraps assumed by the multi-wrap branch:
`Math.ceil(actualDrop / max32Bit)`, written as a ceiling division on Nat
(exact for the positive actualDrop guarding that branch). -/
def wrapsFor (actualDrop : Int) : Int :=
  (((actualDrop.toNat + 4294967294) / 4294967295 : Nat) : Int)

/-- Embedding of handleCounterRollover. Notes on fidelity:
the source condition `previousValue > max32Bit * 0.8` is written
`5 * previousValue > 4 * max32Bit`; both sides are integers and
`max32Bit * 0.8` evaluates to exactly 3435973836 in IEEE-754 double
arithmetic as well as in exact arithmetic, so the comparisons agree.
Pattern 1 of the source is a nested if (outer: near the 32-bit max, inner:
positive single-wrap delta) whose fall-through continues with Pattern 2;
that control flow is flattened into a conjunction.
Pattern 4's `drop64Bit < max64Bit * 0.05` is written
`20 * drop64Bit < max64Bit` (0.05 = 1/20 exactly).
Every return point of the source first assigns
`lastCounterValues[key] = currentValue`; correspondingly every branch here
returns the updated map. -/
def handleCounterRollover (state : CounterMap) (key : CounterKey) (currentValue : Int) :
    RolloverResult :=
  match state key with
  | none => ⟨0, .firstReading, state.update key currentValue⟩
  | some previousValue =>
    if previousValue ≤ currentValue then
      ⟨currentValue - previousValue, .normal, state.update key currentValue⟩
    else
      let actualDrop := previousValue - currentValue
      let singleWrap := max32Bit - previousValue + currentValue
      if 5 * previousValue > 4 * max32Bit ∧ 0 < singleWrap then
        ⟨singleWrap, .singleWrapNearMax, state.update key currentValue⟩
      else if 1000000000 < actualDrop then
        ⟨wrapsFor actualDrop * max32Bit - previousValue + currentValue, .multiWrap,
          state.update key currentValue⟩
      else if 0 < singleWrap ∧ singleWrap < max32Bit * 2 then
        ⟨singleWrap, .singleWrapFormula, state.update key currentValue⟩
      else
        let drop64Bit := max64Bit - previousValue + currentValue
        if 0 < drop64Bit ∧ 20 * drop64Bit < max64Bit then
          ⟨drop64Bit, .wrap64, state.update key currentValue⟩
        else if currentValue < 1000000 then
          ⟨0, .reset, state.update key currentValue⟩
        else
          ⟨actualDrop, .defaultDrop, state.update key currentValue⟩

/-- Concrete key for the branch-precedence scenarios. -/
def c1Key : CounterKey := ⟨"dev1", 1, "rx"⟩

/-- Standard MIB-II table of VENDOR_OIDS (absent metric names map to none,
modelling an undefined property of the source object). -/
def standardOIDs : String → Option String
  | "ifDescr" => some "1.3.6.1.2.1.2.2.1.2"
  | "ifInOctets" => some "1.3.6.1.2.1.2.2.1.10"
  | "ifOutOctets" => some "1.3.6.1.2.1.2.2.1.16"
  | "sysDescr" => some "1.3.6.1.2.1.1.1.0"
  | "cpuUsage" => some "1.3.6.1.4.1.2021.11.9.0"
  | _ => none

/-- Cisco table of VENDOR_OIDS. -/
def ciscoOIDs : String → Option String
  | "ifDescr" => some "1.3.6.1.2.1.2.2.1.2"
  | "ifInOctets" => some "1.3.6.1.2.1.2.2.1.10"
  | "ifOutOctets" => some "1.3.6.1.2.1.2.2.1.16"
  | "sysDescr" => some "1.3.6.1.2.1.1.1.0"
  | "ifHCInOctets" => some "1.3.6.1.2.1.31.1.1.1.6"
  | "ifHCOutOctets" => some "1.3.6.1.2.1.31.1.1.1.10"
  | "cpmCPUTotal5sec" => some "1.3.6.1.4.1.9.9.109.1.1.1.1.5.1"
  | "cpmCPUTotal1min" => some "1.3.6.1.4.1.9.9.109.1.1.1.1.6.1"
  | _ => none

/-- Huawei table of VENDOR_OIDS. -/
def huaweiOIDs : String → Option String
  | "ifDescr" => some "1.3.6.1.2.1.2.2.1.2"
  | "ifInOctets" => some "1.3.6.1.2.1.2.2.1.10"
  | "ifOutOctets" => some "1.3.6.1.2.1.2.2.1.16"
  | "sysDescr" => some "1.3.6.1.2.1.1.1.0"
  | "hwIfInOctets" => some "1.3.6.1.4.1.2011.5.25.31.1.1.3.1.6"
  | "hwIfOutOctets" => some "1.3.6.1.4.1.2011.5.25.31.1.1.3.1.10"
  | "hwEntityCpuUsage" => some "1.3.6.1.4.1.2011.5.25.31.1.1.1.1.6"
  | _ => none

/-- Mikrotik table of VENDOR_OIDS. -/
def mikrotikOIDs : String → Option String
  | "ifDescr" => some "1.3.6.1.2.1.2.2.1.2"
  | "ifInOctets" => some "1.3.6.1.2.1.2.2.1.10"
  | "ifOutOctets" => some "1.3.6.1.2.1.2.2.1.16"
  | "sysDescr" => some "1.3.6.1.2.1.1.1.0"
  | "mtxrIfInOctets" => some "1.3.6.1.4.1.14988.1.1.14.1.1.6"
  | "mtxrIfOutOctets" => some "1.3.6.1.4.1.14988.1.1.14.1.1.10"
  | "mtxrCpuLoad" => some "1.3.6.1.4.1.14988.1.1.3.11.0"
  | _ => none

/-- Juniper table of VENDOR_OIDS. -/
def juniperOIDs : String → Option String
  | "ifDescr" => some "1.3.6.1.2.1.2.2.1.2"
  | "ifInOctets" => some "1.3.6.1.2.1.2.2.1.10"
  | "ifOutOctets" => some "1.3.6.1.2.1.2.2.1.16"
  | "sysDescr" => some "1.3.6.1.2.1.1.1.0"
  | "jnxIfInOctets" => some "1.3.6.1.4.1.2636.3.3.1.1.7"
  | "jnxIfOutOctets" => some "1.3.6.1.4.1.2636.3.3.1.1.11"
  | "jnxOperatingCPU" => some "1.3.6.1.4.1.2636.4.16.1.4.1.1.1"
  | _ => none

/-- HP/Aruba table of VENDOR_OIDS. -/
def hpOIDs : String → Option String
  | "ifDescr" => some "1.3.6.1.2.1.2.2.1.2"
  | "ifInOctets" => some "1.3.6.1.2.1.2.2.1.10"
  | "ifOutOctets" => some "1.3.6.1.2.1.2.2.1.16"
  | "sysDescr" => some "1.3.6.1.2.1.1.1.0"
  | "hpIfInOctets" => some "1.3.6.1.4.1.11.2.14.11.5.1.9.6.1.6"
  | "hpIfOutOctets" => some "1.3.6.1.4.1.11.2.14.11.5.1.9.6.1.10"
  | "hpCpuUtilization" => some "1.3.6.1.4.1.11.2.14.11.5.1.9.6.1.4"
  | _ => none

/-- Top-level VENDOR_OIDS object: vendor tag to per-vendor table; vendors
outside the fixed set map to none (undefined property). -/
def VENDOR_OIDS : String → Option (String → Option String)
  | "standard" => some standardOIDs
  | "cisco" => some ciscoOIDs
  | "huawei" => some huaweiOIDs
  | "mikrotik" => some mikrotikOIDs
  | "juniper" => some juniperOIDs
  | "hp" => some hpOIDs
  | _ => none

/-- Embedding of getVendorOID: the source's
`(VENDOR_OIDS[vendor] || VENDOR_OIDS.standard)[metric] || VENDOR_OIDS.standard[metric]`
with JavaScript truthiness modelled by Option (every present OID is a
nonempty string, so defined and truthy coincide). -/
def getVendorOID (vendor metric : String) : Option String :=
  let vendorConfig := (VENDOR_OIDS vendor).getD standardOIDs
  (vendorConfig metric).orElse (fun _ => standardOIDs metric)

/-- Embedding of getCpuOID: fixed per-vendor choice of the CPU metric name,
looked up in the vendor's table (or standard for unknown vendors). -/
def getCpuOID (vendor : String) : Option String :=
  let vendorConfig := (VENDOR_OIDS vendor).getD standardOIDs
  match vendor with
  | "cisco" => (vendorConfig "cpmCPUTotal5sec").orElse (fun _ => vendorConfig "cpmCPUTotal1min")
  | "huawei" => vendorConfig "hwEntityCpuUsage"
  | "mikrotik" => vendorConfig "mtxrCpuLoad"
  | "juniper" => vendorConfig "jnxOperatingCPU"
  | "hp" => vendorConfig "hpCpuUtilization"
  | _ => vendorConfig "cpuUsage"

/-- Result of one SNMP get for one OID, as seen by the CPU polling code of
pollSNMP: a request-level error (the err callback argument), a varbind-level
error (snmp.isVarbindError), or a response value; the value carries the
parseFloat result, none modelling NaN (non-numeric response). -/
inductive QueryResult where
  | requestError
  | varbindError
  | value (v : Option Rat)
deriving DecidableEq, Repr

/-- Generic UCD-SNMP CPU OID hard-coded in the CPU fallback of pollSNMP. -/
def fallbackCpuOid : String := "1.3.6.1.4.1.2021.11.9.0"

/-- Vendor scaling normalization of pollSNMP: Mikrotik CPU values above 100
are divided by 100 before the range check; identical in the primary and the
fallback path. -/
def normalizeCpu (vendor : String) (v : Rat) : Rat :=
  if vendor = "mikrotik" ∧ 100 < v then v / 100 else v

/-- Embedding of the CPU polling step of pollSNMP for one device: issue a get
on the resolved vendor CPU OID; on a request-level error with a non-standard
vendor, issue one more get on the generic UCD OID; forward the (normalized)
value to processCpuData only when it is a number within [0, 100]. Returns the
list of OIDs queried in order and the forwarded sample (none = the CPU sample
is omitted for this cycle). -/
def pollCpu (vendor : String) (first fallback : QueryResult) :
    List String × Option Rat :=
  match getCpuOID vendor with
  | none => ([], none)
  | some cpuOid =>
    match first with
    | .requestError =>
      if vendor ≠ "standard" then
        match fallback with
        | .value (some v) =>
          let v2 := normalizeCpu vendor v
          ([cpuOid, fallbackCpuOid], if 0 ≤ v2 ∧ v2 ≤ 100 then some v2 else none)
        | _ => ([cpuOid, fallbackCpuOid], none)
      else ([cpuOid], none)
    | .varbindError => ([cpuOid], none)
    | .value none => ([cpuOid], none)
    | .value (some v) =>
      let v2 := normalizeCpu vendor v
      ([cpuOid], if 0 ≤ v2 ∧ v2 ≤ 100 then some v2 else none)

/-- Flapping configuration for one entity class. The source's
settings.flapping object carries two parallel field pairs:
isDeviceFlapping / recordDeviceTransition read deviceWindowMinutes and
deviceThreshold, isPingFlapping / recordPingTransition read
pingWindowMinutes and pingThreshold; the function bodies are otherwise
identical, so they are embedded once, parameterized by this record. -/
structure FlapSettings where
  enabled : Bool
  suppressNotifications : Bool
  windowMinutes : Int
  threshold : Nat
  notifyOnFlappingStart : Bool
  notifyOnFlappingStop : Bool
deriving DecidableEq, Repr

/-- Entry of a FlapHistory transitions list: timestamp, new status, previous
status (the source's from field). -/
structure Transition where
  timestamp : Int
  status : String
  prevStatus : Option String
deriving DecidableEq, Repr

/-- Per-entity entry of deviceFlappingHistory / pingFlappingHistory. -/
structure FlapHistory where
  transitions : List Transition
  isFlapping : Bool
  lastStatus : Option String
deriving DecidableEq, Repr

/-- Embedding of isDeviceFlapping / isPingFlapping. The source mutates
history.transitions in place when pruning to the rolling window, so the
updated history is returned alongside the verdict. -/
def isEntityFlapping (s : FlapSettings) (h : Option FlapHistory) (now : Int) :
    Bool × Option FlapHistory :=
  if s.enabled = false then (false, h)
  else
    match h with
    | none => (false, none)
    | some hist =>
      if hist.transitions.length < 2 then (false, some hist)
      else
        let windowMs := s.windowMinutes * 60 * 1000
        let recentTransitions :=
          hist.transitions.filter (fun t => now - t.timestamp < windowMs)
        (decide (s.threshold ≤ recentTransitions.length),
          some { hist with transitions := recentTransitions })

/-- Default flapping settings installed by the source when settings.flapping
is absent: enabled, suppress notifications, device threshold 5, device
window 10 minutes, both flapping notifications on. -/
def defaultFlapSettings : FlapSettings where
  enabled := true
  suppressNotifications := true
  windowMinutes := 10
  threshold := 5
  notifyOnFlappingStart := true
  notifyOnFlappingStop := true

/-- Concrete flapping history for the C4 scenario: five alternating up/down
transitions one minute apart. -/
def c4Hist : FlapHistory where
  transitions :=
    [⟨0, "down", some "up"⟩, ⟨60000, "up", some "down"⟩, ⟨120000, "down", some "up"⟩,
     ⟨180000, "up", some "down"⟩, ⟨240000, "down", some "up"⟩]
  isFlapping := false
  lastStatus := some "down"

/-- Entry of the flappingAlerts map: the per-entity ActiveAlert record,
created when a flapping-start notice is sent. -/
structure ActiveAlert where
  startTime : Int
  isActive : Bool
deriving DecidableEq, Repr

/-- State of flappingAlerts: partial map from the alert key (the source
builds it as the string type_id) to the ActiveAlert record. -/
abbrev AlertMap := String → Option ActiveAlert

/-- Pointwise update of an alert map. -/
def AlertMap.update (m : AlertMap) (k : String) (a : ActiveAlert) : AlertMap :=
  fun k2 => if k2 = k then some a else m k2

/-- Outbound notifications, abstracting the Telegram/email/event-log side
effects: an ordinary entity status message, or a flapping start/stop notice
(the stop notice carries the rounded duration in minutes). -/
inductive Notification where
  | statusAlert (id status : String)
  | flappingStart (id : String)
  | flappingStop (id : String) (durationMinutes : Int)
deriving DecidableEq, Repr

/-- JavaScript Math.round(a / b) for integer a and positive integer b:
floor of a/b + 1/2, computed as the floor division (2a + b) fdiv 2b. -/
def jsRoundDiv (a b : Int) : Int := Int.fdiv (2 * a + b) (2 * b)

/-- Embedding of notifyFlappingStatus. Fidelity notes: the source takes the
entity type and id and joins them into the alert key type_id; the embedding
takes the joined key. The start branch fires only when no record at all
exists under the key; the stop branch fires only when a record exists and is
active, keeps the record and only clears isActive, and reports
Math.round((now - startTime)/1000/60) minutes. -/
def notifyFlappingStatus (s : FlapSettings) (alerts : AlertMap) (alertKey : String)
    (flapping : Bool) (now : Int) : AlertMap × List Notification :=
  if s.notifyOnFlappingStart = false ∧ s.notifyOnFlappingStop = false then (alerts, [])
  else if flapping ∧ s.notifyOnFlappingStart = true then
    match alerts alertKey with
    | none => (alerts.update alertKey ⟨now, true⟩, [Notification.flappingStart alertKey])
    | some _ => (alerts, [])
  else if flapping = false ∧ s.notifyOnFlappingStop = true then
    match alerts alertKey with
    | some a =>
      if a.isActive then
        (alerts.update alertKey ⟨a.startTime, false⟩,
          [Notification.flappingStop alertKey (jsRoundDiv (now - a.startTime) 60000)])
      else (alerts, [])
    | none => (alerts, [])
  else (alerts, [])

/-- Embedding of recordDeviceTransition / recordPingTransition (identical up
to the history map and settings fields used, see FlapSettings): append a
transition when the status changed, discard transitions older than 24 hours,
re-evaluate the flapping verdict, and on a verdict flip store it and call
notifyFlappingStatus. -/
def recordEntityTransition (s : FlapSettings) (h : Option FlapHistory) (alerts : AlertMap)
    (alertKey status : String) (now : Int) : FlapHistory × AlertMap × List Notification :=
  let h0 := h.getD ⟨[], false, none⟩
  if h0.lastStatus = some status then (h0, alerts, [])
  else
    let pushed := h0.transitions ++ [⟨now, status, h0.lastStatus⟩]
    let kept := pushed.filter (fun t => now - t.timestamp < 86400000)
    let h1 : FlapHistory := ⟨kept, h0.isFlapping, some status⟩
    let fr := isEntityFlapping s (some h1) now
    let h2 := fr.2.getD h1
    if fr.1 ≠ h1.isFlapping then
      let nf := notifyFlappingStatus s alerts alertKey fr.1 now
      ({ h2 with isFlapping := fr.1 }, nf.1, nf.2)
    else
      (h2, alerts, [])

/-- Telegram notification switches read by notifyDeviceStatus and
notifyPingStatus (settings.telegram). -/
structure TelegramSettings where
  enabled : Bool
  notifyOnDeviceUp : Bool
  notifyOnDeviceDown : Bool
  notifyOnPingDown : Bool
  notifyOnPingUp : Bool
  notifyOnPingTimeout : Bool
  notifyOnPingHighLatency : Bool
  pingLatencyThreshold : Option Int
deriving DecidableEq, Repr

/-- Condition under which notifyDeviceStatus builds a nonempty message. -/
def deviceMessageEnabled (tg : TelegramSettings) (status : String) : Bool :=
  (status == "up" && tg.notifyOnDeviceUp) || (status == "down" && tg.notifyOnDeviceDown)

/-- Condition under which notifyPingStatus sets shouldNotify. The
high-latency branch requires a non-null latency at or above the configured
threshold (source default 50, applied through JavaScript || so a missing
threshold is modelled by none). -/
def pingMessageEnabled (tg : TelegramSettings) (status : String) (latency : Option Int) : Bool :=
  (status == "down" && tg.notifyOnPingDown) ||
  (status == "up" && tg.notifyOnPingUp) ||
  (status == "timeout" && tg.notifyOnPingTimeout) ||
  (status == "high_latency" && tg.notifyOnPingHighLatency &&
    (match latency with
     | some l => decide (tg.pingLatencyThreshold.getD 50 ≤ l)
     | none => false))

/-- Embedding of notifyDeviceStatus: record the transition, then, when
flapping suppression is configured and the entity is flapping, return without
any ordinary message; otherwise emit the Telegram device up/down message when
its switch is on. When suppression is not configured the source never calls
isDeviceFlapping here; the embedding computes the call but discards its
pruning in that case, which yields the same state. -/
def notifyDeviceStatus (s : FlapSettings) (tg : TelegramSettings) (h : Option FlapHistory)
    (alerts : AlertMap) (deviceId status : String) (now : Int) :
    FlapHistory × AlertMap × List Notification :=
  let r := recordEntityTransition s h alerts ("device_" ++ deviceId) status now
  let fr := isEntityFlapping s (some r.1) now
  let suppress := s.enabled && s.suppressNotifications
  let h2 := if suppress then fr.2.getD r.1 else r.1
  if suppress && fr.1 then (h2, r.2.1, r.2.2)
  else if tg.enabled && deviceMessageEnabled tg status then
    (h2, r.2.1, r.2.2 ++ [Notification.statusAlert deviceId status])
  else (h2, r.2.1, r.2.2)

/-- Embedding of notifyPingStatus, structured like notifyDeviceStatus with
the ping alert key and the four ping message branches (packet loss only
appears in message text and is not modelled). -/
def notifyPingStatus (s : FlapSettings) (tg : TelegramSettings) (h : Option FlapHistory)
    (alerts : AlertMap) (targetId status : String) (latency : Option Int) (now : Int) :
    FlapHistory × AlertMap × List Notification :=
  let r := recordEntityTransition s h alerts ("ping_" ++ targetId) status now
  let fr := isEntityFlapping s (some r.1) now
  let suppress := s.enabled && s.suppressNotifications
  let h2 := if suppress then fr.2.getD r.1 else r.1
  if suppress && fr.1 then (h2, r.2.1, r.2.2)
  else if tg.enabled && pingMessageEnabled tg status latency then
    (h2, r.2.1, r.2.2 ++ [Notification.statusAlert targetId status])
  else (h2, r.2.1, r.2.2)

/-- Entry of deviceStatusHistory: SNMP device liveness record. -/
structure DeviceStatus where
  alive : Bool
  lastCheck : Int
deriving DecidableEq, Repr

/-- Timeout threshold of checkDeviceTimeouts: five minutes. -/
def timeoutThreshold : Int := 5 * 60 * 1000

/-- Combined monitoring state of one device: its deviceStatusHistory entry,
its deviceFlappingHistory entry, the flappingAlerts map, and the log of
notifications emitted so far. -/
structure DeviceMonState where
  status : Option DeviceStatus
  history : Option FlapHistory
  alerts : AlertMap
  log : List Notification

/-- Embedding of the per-device status handling at the start of a pollSNMP
cycle, before any SNMP get is issued: the device is unconditionally recorded
alive with the cycle start time; when the previous record said not alive a
device-up notification is attempted first. The allQueriesFailed flag stands
for the outcome of every SNMP query of this device in this cycle; the source
never consults query outcomes when writing deviceStatusHistory (its only
writers are this cycle-start assignment and checkDeviceTimeouts), so the
update ignores the flag. -/
def pollCycleDeviceEntry (s : FlapSettings) (tg : TelegramSettings) (st : DeviceMonState)
    (deviceId : String) (now : Int) (_allQueriesFailed : Bool) : DeviceMonState :=
  let wasDown := match st.status with
    | some p => !p.alive
    | none => false
  if wasDown then
    let r := notifyDeviceStatus s tg st.history st.alerts deviceId "up" now
    ⟨some ⟨true, now⟩, some r.1, r.2.1, st.log ++ r.2.2⟩
  else
    ⟨some ⟨true, now⟩, st.history, st.alerts, st.log⟩

/-- Embedding of checkDeviceTimeouts for one device: an alive record whose
last check is older than the five-minute threshold is rewritten to not-alive
at sweep time and a device-down notification is attempted; any other record
is untouched. -/
def checkDeviceTimeoutsEntry (s : FlapSettings) (tg : TelegramSettings) (st : DeviceMonState)
    (deviceId : String) (now : Int) : DeviceMonState :=
  match st.status with
  | some p =>
    if p.alive && decide (timeoutThreshold < now - p.lastCheck) then
      let r := notifyDeviceStatus s tg st.history st.alerts deviceId "down" now
      ⟨some ⟨false, now⟩, some r.1, r.2.1, st.log ++ r.2.2⟩
    else st
  | none => st

/-- Events affecting one device's liveness record: a pollSNMP cycle start
(startPolling schedules these every pollingInterval) and a
checkDeviceTimeouts sweep (scheduled every 60 seconds). -/
inductive MonEvent where
  | pollCycle (now : Int) (allQueriesFailed : Bool)
  | timeoutSweep (now : Int)
deriving DecidableEq, Repr

/-- Run of one device's monitoring state over a list of timed events. -/
def runDeviceMon (s : FlapSettings) (tg : TelegramSettings) (deviceId : String)
    (events : List MonEvent) (st : DeviceMonState) : DeviceMonState :=
  events.foldl (fun acc e =>
    match e with
    | MonEvent.pollCycle now f => pollCycleDeviceEntry s tg acc deviceId now f
    | MonEvent.timeoutSweep now => checkDeviceTimeoutsEntry s tg acc deviceId now) st

/-- Telegram settings with every notification switch on. -/
def allTelegram : TelegramSettings where
  enabled := true
  notifyOnDeviceUp := true
  notifyOnDeviceDown := true
  notifyOnPingDown := true
  notifyOnPingUp := true
  notifyOnPingTimeout := true
  notifyOnPingHighLatency := true
  pingLatencyThreshold := some 50

/-- Initial monitoring state: no records, no alerts, empty log. -/
def initialMonState : DeviceMonState := ⟨none, none, fun _ => none, []⟩

/-- Ten minutes of poll cycles every 60 seconds during which every SNMP
query of the device fails, interleaved with timeout sweeps every 60
seconds. -/
def c3Trace : List MonEvent :=
  [MonEvent.pollCycle 0 true, MonEvent.timeoutSweep 30000,
   MonEvent.pollCycle 60000 true, MonEvent.timeoutSweep 90000,
   MonEvent.pollCycle 120000 true, MonEvent.timeoutSweep 150000,
   MonEvent.pollCycle 180000 true, MonEvent.timeoutSweep 210000,
   MonEvent.pollCycle 240000 true, MonEvent.timeoutSweep 270000,
   MonEvent.pollCycle 300000 true, MonEvent.timeoutSweep 330000,
   MonEvent.pollCycle 360000 true, MonEvent.timeoutSweep 390000,
   MonEvent.pollCycle 420000 true, MonEvent.timeoutSweep 450000,
   MonEvent.pollCycle 480000 true, MonEvent.timeoutSweep 510000,
   MonEvent.pollCycle 540000 true, MonEvent.timeoutSweep 570000,
   MonEvent.pollCycle 600000 true, MonEvent.timeoutSweep 630000]

/-- Flapping history for the C5 suppression scenario: four alternating
transitions, the next observed down status makes five inside the window. -/
def c5Hist : FlapHistory where
  transitions :=
    [⟨0, "down", some "up"⟩, ⟨60000, "up", some "down"⟩, ⟨120000, "down", some "up"⟩,
     ⟨180000, "up", some "down"⟩]
  isFlapping := false
  lastStatus := some "up"

/-- First C6 step: the entity starts flapping at t = 1000000. -/
def c6Alerts1 : AlertMap × List Notification :=
  notifyFlappingStatus defaultFlapSettings (fun _ => none) "device_dev1" true 1000000

/-- Second C6 step: the entity stops flapping 20 minutes later. -/
def c6Alerts2 : AlertMap × List Notification :=
  notifyFlappingStatus defaultFlapSettings c6Alerts1.1 "device_dev1" false 2200000

/-- Third C6 step: the same entity starts flapping again. -/
def c6Alerts3 : AlertMap × List Notification :=
  notifyFlappingStatus defaultFlapSettings c6Alerts2.1 "device_dev1" true 3000000

/-- Every branch of handleCounterRollover stores currentValue under key
(shared helper for the state-invariant results). -/
theorem rollover_state_update (state : CounterMap) (key : CounterKey) (v : Int) :
    (handleCounterRollover state key v).state = state.update key v := by
  unfold handleCounterRollover
  cases state key with
  | none => rfl
  | some previousValue =>
    dsimp only
    split
    · rfl
    · split
      · rfl
      · split
        · rfl
        · split
          · rfl
          · split
            · rfl
            · split <;> rfl

/-- Ceiling division bound: the assumed wraps cover the observed drop
(shared helper for the nonnegativity result). -/
theorem wrapsFor_mul_ge (d : Int) (hd : 0 < d) : d ≤ wrapsFor d * max32Bit := by
  have h1 : (d.toNat : Int) = d := Int.toNat_of_nonneg hd.le
  have h2 : d.toNat ≤ ((d.toNat + 4294967294) / 4294967295) * 4294967295 := by omega
  have h3 : ((d.toNat : Int)) ≤ ((((d.toNat + 4294967294) / 4294967295) * 4294967295 : Nat) : Int) :=
    Int.ofNat_le.mpr h2
  unfold wrapsFor max32Bit
  push_cast at h3 ⊢
  omega

/-- C1: with a previously stored counter value larger than the new raw value,
handleCounterRollover evaluates its correction branches in the source's
precedence order: previous 4294967000 / current 500 returns 795 through the
near-max single-wrap branch (Pattern 1); previous 100000000 / current
50000000 skips the multi-wrap branch (drop 50000000 is not above 1e9) and
returns through the single-wrap formula branch (Pattern 3); previous
2000000000 / current 500000 returns through the multi-wrap branch (drop
1999500000 above 1e9), which fires before the near-zero reset branch. -/
theorem c1_rollover_branch_precedence :
    (handleCounterRollover (counterMapOf c1Key 4294967000) c1Key 500).delta = 795 ∧
    (handleCounterRollover (counterMapOf c1Key 4294967000) c1Key 500).branch =
      RolloverBranch.singleWrapNearMax ∧
    (handleCounterRollover (counterMapOf c1Key 100000000) c1Key 50000000).branch =
      RolloverBranch.singleWrapFormula ∧
    (handleCounterRollover (counterMapOf c1Key 100000000) c1Key 50000000).delta = 4244967295 ∧
    (handleCounterRollover (counterMapOf c1Key 2000000000) c1Key 500000).branch =
      RolloverBranch.multiWrap ∧
    (handleCounterRollover (counterMapOf c1Key 2000000000) c1Key 500000).delta = 2295467295 := by
  decide

/-- C2: the first call for a key stores the raw value and returns delta 0;
any later call whose raw value is at least the stored previous value returns
the arithmetic difference rawValue - previous. -/
theorem c2_first_reading_and_monotone (state : CounterMap) (key : CounterKey)
    (rawValue previous : Int) :
    (state key = none →
      (handleCounterRollover state key rawValue).delta = 0 ∧
      (handleCounterRollover state key rawValue).state key = some rawValue) ∧
    (state key = some previous → previous ≤ rawValue →
      (handleCounterRollover state key rawValue).delta = rawValue - previous) := by
  constructor
  · intro h
    rw [rollover_state_update]
    unfold handleCounterRollover CounterMap.update
    rw [h]
    simp
  · intro h hle
    unfold handleCounterRollover
    rw [h]
    simp [hle]

/-- Witness for C2 at a concrete fresh key and a concrete increasing pair. -/
theorem c2_witness :
    (handleCounterRollover (fun _ => none) c1Key 42).delta = 0 ∧
    (handleCounterRollover (counterMapOf c1Key 10) c1Key 42).delta = 42 - 10 := by
  refine ⟨((c2_first_reading_and_monotone (fun _ => none) c1Key 42 0).1 rfl).1, ?_⟩
  exact (c2_first_reading_and_monotone (counterMapOf c1Key 10) c1Key 42 10).2 (by decide) (by decide)

/-- C9: every branch of handleCounterRollover replaces the stored value for
the key with the new raw value, and no other key's entry changes, so there
is at most one entry per key and after the call it holds the last observed
raw value regardless of the rollover outcome. -/
theorem c9_counter_state_replaced (state : CounterMap) (key otherKey : CounterKey)
    (rawValue : Int) :
    (handleCounterRollover state key rawValue).state key = some rawValue ∧
    (otherKey ≠ key → (handleCounterRollover state key rawValue).state otherKey =
      state otherKey) := by
  rw [rollover_state_update]
  unfold CounterMap.update
  exact ⟨by simp, fun h => by simp [h]⟩

/-- Witness for C9 at concrete distinct keys. -/
theorem c9_witness :
    (handleCounterRollover (counterMapOf c1Key 7) c1Key 99).state c1Key = some 99 ∧
    (handleCounterRollover (counterMapOf c1Key 7) c1Key 99).state ⟨"dev2", 2, "tx"⟩ =
      counterMapOf c1Key 7 ⟨"dev2", 2, "tx"⟩ := by
  refine ⟨(c9_counter_state_replaced (counterMapOf c1Key 7) c1Key ⟨"dev2", 2, "tx"⟩ 99).1, ?_⟩
  exact (c9_counter_state_replaced (counterMapOf c1Key 7) c1Key ⟨"dev2", 2, "tx"⟩ 99).2 (by decide)

/-- C7: the resolver returns the Mikrotik table's identifier for
(mikrotik, ifInOctets); any vendor outside the fixed table falls back to the
standard table for every metric (witnessed at unknownVendor/ifInOctets);
and (cisco, nonexistentMetric) falls back to the standard table, which lacks
the metric too, so the resolver signals it unsupported (none). -/
theorem c7_vendor_oid_resolution :
    getVendorOID "mikrotik" "ifInOctets" = mikrotikOIDs "ifInOctets" ∧
    mikrotikOIDs "ifInOctets" = some "1.3.6.1.2.1.2.2.1.10" ∧
    getVendorOID "unknownVendor" "ifInOctets" = standardOIDs "ifInOctets" ∧
    standardOIDs "ifInOctets" = some "1.3.6.1.2.1.2.2.1.10" ∧
    ciscoOIDs "nonexistentMetric" = none ∧
    standardOIDs "nonexistentMetric" = none ∧
    getVendorOID "cisco" "nonexistentMetric" = none ∧
    (∀ vendor metric, VENDOR_OIDS vendor = none →
      getVendorOID vendor metric = standardOIDs metric) := by
  refine ⟨rfl, rfl, rfl, rfl, rfl, rfl, rfl, ?_⟩
  intro vendor metric h
  unfold getVendorOID
  rw [h]
  cases hm : standardOIDs metric <;> simp [Option.orElse, hm]

/-- Witness for C7's universally quantified fallback clause at a vendor tag
outside the fixed table. -/
theorem c7_witness :
    getVendorOID "someOtherVendor" "ifOutOctets" = standardOIDs "ifOutOctets" :=
  c7_vendor_oid_resolution.2.2.2.2.2.2.2 "someOtherVendor" "ifOutOctets" rfl

/-- Counterexample to C8 as stated: a varbind-level error on the CPU response
(the typical unsupported-OID outcome) triggers no fallback query at all; the
cycle queries only the vendor CPU OID and forwards nothing, even though the
generic OID would have answered with a valid value. -/
theorem c8_counterexample :
    getCpuOID "cisco" = some "1.3.6.1.4.1.9.9.109.1.1.1.1.5.1" ∧
    (pollCpu "cisco" QueryResult.varbindError (QueryResult.value (some 50))).1 =
      ["1.3.6.1.4.1.9.9.109.1.1.1.1.5.1"] ∧
    fallbackCpuOid ∉ (pollCpu "cisco" QueryResult.varbindError (QueryResult.value (some 50))).1 ∧
    (pollCpu "cisco" QueryResult.varbindError (QueryResult.value (some 50))).2 = none := by
  refine ⟨rfl, rfl, ?_, rfl⟩
  decide

/-- C8 (amended): each poll cycle issues its CPU query on the resolved vendor
CPU identifier; when that query fails with a request-level error and the
vendor is not standard, exactly one fallback query on the generic identifier
follows; and in both the primary and the fallback value paths a CPU sample is
forwarded if and only if the value, after the Mikrotik times-100 scaling is
normalized away, lies in [0, 100]. -/
theorem c8_cpu_fallback_and_range (vendor cpuOid : String) (v : Rat)
    (first fallback : QueryResult) :
    (getCpuOID vendor = some cpuOid →
      (pollCpu vendor first fallback).1.head? = some cpuOid) ∧
    (getCpuOID vendor = some cpuOid → vendor ≠ "standard" →
      (pollCpu vendor QueryResult.requestError fallback).1 = [cpuOid, fallbackCpuOid]) ∧
    (getCpuOID vendor = some cpuOid →
      (pollCpu vendor (QueryResult.value (some v)) fallback).2 =
        (if 0 ≤ normalizeCpu vendor v ∧ normalizeCpu vendor v ≤ 100 then
          some (normalizeCpu vendor v) else none)) ∧
    (getCpuOID vendor = some cpuOid → vendor ≠ "standard" →
      (pollCpu vendor QueryResult.requestError (QueryResult.value (some v))).2 =
        (if 0 ≤ normalizeCpu vendor v ∧ normalizeCpu vendor v ≤ 100 then
          some (normalizeCpu vendor v) else none)) := by
  refine ⟨?_, ?_, ?_, ?_⟩
  · intro h
    unfold pollCpu
    rw [h]
    cases first with
    | requestError =>
      by_cases hs : vendor = "standard"
      · simp [hs]
      · cases fallback with
        | requestError => simp [hs]
        | varbindError => simp [hs]
        | value v0 => cases v0 <;> simp [hs]
    | varbindError => rfl
    | value v0 => cases v0 <;> rfl
  · intro h hs
    unfold pollCpu
    rw [h]
    cases fallback with
    | requestError => simp [hs]
    | varbindError => simp [hs]
    | value v0 => cases v0 <;> simp [hs]
  · intro h
    unfold pollCpu
    rw [h]
  · intro h hs
    unfold pollCpu
    rw [h]
    simp [hs]

/-- Witness for C8's amended statement: Mikrotik device whose vendor CPU
query fails at request level; the fallback answers 5000, normalized to 50
and forwarded. -/
theorem c8_witness :
    (pollCpu "mikrotik" QueryResult.requestError (QueryResult.value (some 5000))).1 =
      ["1.3.6.1.4.1.14988.1.1.3.11.0", fallbackCpuOid] ∧
    (pollCpu "mikrotik" QueryResult.requestError (QueryResult.value (some 5000))).2 =
      (if (0 : Rat) ≤ normalizeCpu "mikrotik" 5000 ∧ normalizeCpu "mikrotik" 5000 ≤ 100 then
        some (normalizeCpu "mikrotik" 5000) else none) := by
  refine ⟨?_, ?_⟩
  · exact (c8_cpu_fallback_and_range "mikrotik" "1.3.6.1.4.1.14988.1.1.3.11.0" 0
      QueryResult.requestError (QueryResult.value (some 5000))).2.1 rfl (by decide)
  · exact (c8_cpu_fallback_and_range "mikrotik" "1.3.6.1.4.1.14988.1.1.3.11.0" 5000
      QueryResult.requestError (QueryResult.value (some 5000))).2.2.2 rfl (by decide)

/-- C4: with flapping enabled and a threshold of at least 2 (the range the
configuration boundary enforces is 2..20), the flapping verdict equals
"count of transitions inside the rolling window reaches the threshold", and
whenever at least two transitions are recorded the stored history is pruned
to exactly the transitions inside the window. -/
theorem c4_flapping_predicate (s : FlapSettings) (hist : FlapHistory) (now : Int)
    (henabled : s.enabled = true) (hthr : 2 ≤ s.threshold) :
    (isEntityFlapping s (some hist) now).1 =
      decide (s.threshold ≤ (hist.transitions.filter
        (fun t => now - t.timestamp < s.windowMinutes * 60 * 1000)).length) ∧
    (2 ≤ hist.transitions.length →
      (isEntityFlapping s (some hist) now).2 =
        some { hist with transitions := hist.transitions.filter (fun t => now - t.timestamp < s.windowMinutes * 60 * 1000) }) := by
  unfold isEntityFlapping
  rw [henabled]
  by_cases hlen : hist.transitions.length < 2
  · have hfle := List.length_filter_le
      (fun t => now - t.timestamp < s.windowMinutes * 60 * 1000) hist.transitions
    have hnot : ¬ (s.threshold ≤ (hist.transitions.filter
        (fun t => now - t.timestamp < s.windowMinutes * 60 * 1000)).length) := by
      omega
    constructor
    · simp [hlen, hnot]
    · intro h2
      omega
  · constructor
    · simp [hlen]
    · intro h2
      simp [hlen]

/-- Witness for C4: with the default settings (window 10 minutes, threshold
5), five transitions inside the window give a true verdict at 9 minutes, and
after the window has fully elapsed re-evaluation gives false. -/
theorem c4_witness :
    (isEntityFlapping defaultFlapSettings (some c4Hist) 540000).1 = true ∧
    (isEntityFlapping defaultFlapSettings (some c4Hist) 1000000).1 = false := by
  constructor
  · rw [(c4_flapping_predicate defaultFlapSettings c4Hist 540000 rfl (by decide)).1]
    decide
  · rw [(c4_flapping_predicate defaultFlapSettings c4Hist 1000000 rfl (by decide)).1]
    decide

/-- Notifications of notifyFlappingStatus are flapping notices only (shared
helper). -/
theorem notifyFlappingStatus_only_flap (s : FlapSettings) (alerts : AlertMap)
    (k : String) (f : Bool) (now : Int) (i st2 : String) :
    Notification.statusAlert i st2 ∉ (notifyFlappingStatus s alerts k f now).2 := by
  unfold notifyFlappingStatus
  repeat' split
  all_goals simp

/-- Notifications of recordEntityTransition are flapping notices only
(shared helper). -/
theorem recordEntityTransition_only_flap (s : FlapSettings) (h : Option FlapHistory)
    (alerts : AlertMap) (k status : String) (now : Int) (i st2 : String) :
    Notification.statusAlert i st2 ∉ (recordEntityTransition s h alerts k status now).2.2 := by
  unfold recordEntityTransition
  dsimp only
  split
  · simp
  · split
    · exact notifyFlappingStatus_only_flap s alerts k _ now i st2
    · simp

/-- Window pruning keeps lastStatus (shared helper). -/
theorem isEntityFlapping_lastStatus (s : FlapSettings) (h1 : FlapHistory) (now : Int) :
    ((isEntityFlapping s (some h1) now).2.getD h1).lastStatus = h1.lastStatus := by
  unfold isEntityFlapping
  split
  · rfl
  · dsimp only
    split
    · rfl
    · rfl

/-- Recording a status always leaves it as the stored lastStatus (shared
helper). -/
theorem recordEntityTransition_lastStatus (s : FlapSettings) (h : Option FlapHistory)
    (alerts : AlertMap) (k status : String) (now : Int) :
    (recordEntityTransition s h alerts k status now).1.lastStatus = some status := by
  unfold recordEntityTransition
  dsimp only
  split
  · rename_i heq
    exact heq
  · split
    · exact isEntityFlapping_lastStatus s ⟨_, _, some status⟩ now
    · exact isEntityFlapping_lastStatus s ⟨_, _, some status⟩ now

/-- C10: the delta returned by handleCounterRollover is never negative, for
every state, key and raw value, through every branch. -/
theorem c10_delta_nonneg (state : CounterKey → Option Int) (key : CounterKey) (rawValue : Int) :
    0 ≤ (handleCounterRollover state key rawValue).delta := by
  unfold handleCounterRollover
  cases state key with
  | none => dsimp only; omega
  | some previousValue =>
    dsimp only
    split
    · dsimp only; omega
    · split
      · dsimp only; omega
      · split
        · dsimp only
          have h5 := wrapsFor_mul_ge (previousValue - rawValue) (by omega)
          omega
        · split
          · dsimp only; omega
          · split
            · dsimp only; omega
            · split
              · dsimp only; omega
              · dsimp only; omega

/-- Counterexample to C3 as stated: a device whose SNMP queries all fail for
more than five minutes, while poll cycles keep running every 60 seconds, is
never marked down and never generates a down notification: each poll cycle
start refreshes the liveness record unconditionally, so the sweep threshold
is never exceeded. -/
theorem c3_counterexample :
    (runDeviceMon defaultFlapSettings allTelegram "dev1" c3Trace initialMonState).status =
      some ⟨true, 600000⟩ ∧
    (runDeviceMon defaultFlapSettings allTelegram "dev1" c3Trace initialMonState).log = [] := by
  decide

/-- C3 (amended): every poll cycle marks the device up (alive, stamped with
the cycle time) regardless of whether any of its queries succeed, and the
timeout sweep marks an alive device down exactly when its recorded last
check is more than five minutes old — a value that measures the time since
the last poll cycle started, not since the last successful query. -/
theorem c3_poll_up_and_sweep_down (s : FlapSettings) (tg : TelegramSettings)
    (st : DeviceMonState) (deviceId : String) (now : Int) (b : Bool) (p : DeviceStatus) :
    ((pollCycleDeviceEntry s tg st deviceId now b).status = some ⟨true, now⟩) ∧
    (pollCycleDeviceEntry s tg st deviceId now b =
      pollCycleDeviceEntry s tg st deviceId now (!b)) ∧
    (st.status = some p → p.alive = true → timeoutThreshold < now - p.lastCheck →
      (checkDeviceTimeoutsEntry s tg st deviceId now).status = some ⟨false, now⟩) ∧
    (st.status = some p → p.alive = true → ¬ timeoutThreshold < now - p.lastCheck →
      checkDeviceTimeoutsEntry s tg st deviceId now = st) ∧
    (st.status = some p → p.alive = false →
      checkDeviceTimeoutsEntry s tg st deviceId now = st) := by
  refine ⟨?_, rfl, ?_, ?_, ?_⟩
  · unfold pollCycleDeviceEntry
    dsimp only
    split <;> rfl
  · intro hp halive hlt
    unfold checkDeviceTimeoutsEntry
    rw [hp]
    simp [halive, hlt]
  · intro hp halive hlt
    unfold checkDeviceTimeoutsEntry
    rw [hp]
    simp [halive, hlt]
  · intro hp halive
    unfold checkDeviceTimeoutsEntry
    rw [hp]
    simp [halive]

/-- Witness for C3's amended statement: a poll cycle with every query
failing still marks the device up, and a sweep 301 seconds after the last
recorded check marks it down. -/
theorem c3_witness :
    (pollCycleDeviceEntry defaultFlapSettings allTelegram initialMonState "dev1" 1000 true).status =
      some ⟨true, 1000⟩ ∧
    (checkDeviceTimeoutsEntry defaultFlapSettings allTelegram
      ⟨some ⟨true, 0⟩, none, fun _ => none, []⟩ "dev1" 301000).status = some ⟨false, 301000⟩ := by
  constructor
  · exact (c3_poll_up_and_sweep_down defaultFlapSettings allTelegram initialMonState "dev1"
      1000 true ⟨true, 0⟩).1
  · exact (c3_poll_up_and_sweep_down defaultFlapSettings allTelegram
      ⟨some ⟨true, 0⟩, none, fun _ => none, []⟩ "dev1" 301000 true ⟨true, 0⟩).2.2.1
      rfl rfl (by decide)

/-- C5: with flapping suppression configured and the entity flapping once
the new status is recorded, neither notifyDeviceStatus nor notifyPingStatus
adds an ordinary status alert — their notifications are exactly those of the
recording step, which are flapping notices only — while the stored
transition history still ends with the observed status; and the device
liveness record is still rewritten by the poll-cycle and timeout-sweep paths
that call notifyDeviceStatus. -/
theorem c5_suppression (s : FlapSettings) (tg : TelegramSettings) (h : Option FlapHistory)
    (alerts : AlertMap) (deviceId targetId status : String) (latency : Option Int)
    (now : Int) (st : DeviceMonState) (p : DeviceStatus) :
    (s.enabled = true → s.suppressNotifications = true →
      (isEntityFlapping s
        (some (recordEntityTransition s h alerts ("device_" ++ deviceId) status now).1) now).1 = true →
      (notifyDeviceStatus s tg h alerts deviceId status now).2.2 =
        (recordEntityTransition s h alerts ("device_" ++ deviceId) status now).2.2) ∧
    (∀ i st2, Notification.statusAlert i st2 ∉
      (recordEntityTransition s h alerts ("device_" ++ deviceId) status now).2.2) ∧
    ((notifyDeviceStatus s tg h alerts deviceId status now).1.lastStatus = some status) ∧
    (s.enabled = true → s.suppressNotifications = true →
      (isEntityFlapping s
        (some (recordEntityTransition s h alerts ("ping_" ++ targetId) status now).1) now).1 = true →
      (notifyPingStatus s tg h alerts targetId status latency now).2.2 =
        (recordEntityTransition s h alerts ("ping_" ++ targetId) status now).2.2) ∧
    ((notifyPingStatus s tg h alerts targetId status latency now).1.lastStatus = some status) ∧
    ((pollCycleDeviceEntry s tg st deviceId now false).status = some ⟨true, now⟩) ∧
    (st.status = some p → p.alive = true → timeoutThreshold < now - p.lastCheck →
      (checkDeviceTimeoutsEntry s tg st deviceId now).status = some ⟨false, now⟩) := by
  refine ⟨?_, ?_, ?_, ?_, ?_, ?_, ?_⟩
  · intro he hs hf
    unfold notifyDeviceStatus
    dsimp only
    simp [he, hs, hf]
  · intro i st2
    exact recordEntityTransition_only_flap s h alerts ("device_" ++ deviceId) status now i st2
  · have hrec := recordEntityTransition_lastStatus s h alerts ("device_" ++ deviceId) status now
    have hprune := isEntityFlapping_lastStatus s
      (recordEntityTransition s h alerts ("device_" ++ deviceId) status now).1 now
    unfold notifyDeviceStatus
    dsimp only
    split
    · split
      · rw [hprune]; exact hrec
      · exact hrec
    · split
      · split
        · rw [hprune]; exact hrec
        · exact hrec
      · split
        · rw [hprune]; exact hrec
        · exact hrec
  · intro he hs hf
    unfold notifyPingStatus
    dsimp only
    simp [he, hs, hf]
  · have hrec := recordEntityTransition_lastStatus s h alerts ("ping_" ++ targetId) status now
    have hprune := isEntityFlapping_lastStatus s
      (recordEntityTransition s h alerts ("ping_" ++ targetId) status now).1 now
    unfold notifyPingStatus
    dsimp only
    split
    · split
      · rw [hprune]; exact hrec
      · exact hrec
    · split
      · split
        · rw [hprune]; exact hrec
        · exact hrec
      · split
        · rw [hprune]; exact hrec
        · exact hrec
  · unfold pollCycleDeviceEntry
    dsimp only
    split <;> rfl
  · intro hp halive hlt
    unfold checkDeviceTimeoutsEntry
    rw [hp]
    simp [halive, hlt]

/-- Witness for C5: a device whose fifth alternating transition in ten
minutes makes it flapping has the down notification suppressed (only the
flapping-start notice of the recording step is emitted) while the history
still records the down status. -/
theorem c5_witness :
    (notifyDeviceStatus defaultFlapSettings allTelegram (some c5Hist) (fun _ => none)
      "dev1" "down" 240000).2.2 =
      (recordEntityTransition defaultFlapSettings (some c5Hist) (fun _ => none)
        ("device_" ++ "dev1") "down" 240000).2.2 ∧
    (notifyDeviceStatus defaultFlapSettings allTelegram (some c5Hist) (fun _ => none)
      "dev1" "down" 240000).1.lastStatus = some "down" := by
  constructor
  · exact (c5_suppression defaultFlapSettings allTelegram (some c5Hist) (fun _ => none)
      "dev1" "t1" "down" none 240000 initialMonState ⟨true, 0⟩).1 rfl rfl (by decide)
  · exact (c5_suppression defaultFlapSettings allTelegram (some c5Hist) (fun _ => none)
      "dev1" "t1" "down" none 240000 initialMonState ⟨true, 0⟩).2.2.1

/-- C6: evaluation of notifyFlappingStatus over two flapping episodes of the
same entity with both flapping notifications enabled. The first start emits
the flapping-start notice and opens the ActiveAlert; the stop emits the
notice with the 20-minute duration and clears isActive while keeping the
record; the second start — a fresh false-to-true flip — emits nothing and
opens nothing, because the stale record still exists under the key. -/
theorem c6_flapping_alert_lifecycle :
    c6Alerts1.2 = [Notification.flappingStart "device_dev1"] ∧
    c6Alerts1.1 "device_dev1" = some ⟨1000000, true⟩ ∧
    c6Alerts2.2 = [Notification.flappingStop "device_dev1" 20] ∧
    c6Alerts2.1 "device_dev1" = some ⟨1000000, false⟩ ∧
    c6Alerts3.2 = [] ∧
    c6Alerts3.1 "device_dev1" = some ⟨1000000, false⟩ := by
  decide

end SMon
